import Mathlib

/-
  Verification of the sda-pipeline worker services (cmd/sync, which holds two
  sync worker variants and the verify worker) and of internal/storage, against
  their natural-language specification.  The worker loops are embedded as
  per-delivery iteration functions over an explicit environment recording the
  results the external collaborators (broker, database, storage backends)
  return for that delivery; the observable effects of an iteration are
  collected as a list of actions in program order.
-/

namespace SDA

/-- Byte streams are modelled as lists of naturals, one per byte. -/
abbrev Bytes := List Nat

/-- Observable effects of one worker-loop iteration, in program order:
broker acknowledgements, outbound publishes to the downstream routing key,
diagnostic publishes to the error channel, and database state transitions.
A failed collaborator call produces no action. -/
inductive Action where
  | ack : Action
  | nack : Bool → Action
  | publishOut : Action
  | publishError : Action
  | markReady : Action
  | markCompleted : Action
  deriving DecidableEq, Repr

/-- How an iteration ends: proceed to the next delivery, crash with a runtime
panic, or terminate the whole process (log.Fatal). -/
inductive Outcome where
  | nextDelivery : Outcome
  | panicked : Outcome
  | fatal : Outcome
  deriving DecidableEq, Repr

/-- Result of one iteration of a sync worker loop: the effects performed, how
the iteration ended, and the byte count written to the destination object on
the backup backend when the copy step ran (io.Copy writes exactly the bytes
it counts). -/
structure IterResult where
  actions : List Action
  outcome : Outcome
  destLen : Option Nat
  deriving DecidableEq, Repr

/-- Modelled from the spec: the broker-client schema validation
(broker.ValidateJSON, part of the repository but not under src).  On a failed
validation it negative-acknowledges the delivery without requeue and
publishes one diagnostic event to the error channel; the caller then
proceeds to the next delivery. -/
def validateJSONFailActions : List Action :=
  [Action.nack false, Action.publishError]

/-- Collaborator outcomes for one delivery of the first sync worker
(archive-to-backup variant of cmd/sync): broker schema validation,
db.GetArchived (archive path and recorded size), archive.NewFileReader,
backup.NewFileWriter, io.Copy (error flag and bytes copied), and
mq.SendMessage. -/
structure SyncArchiveEnv where
  validateOk : Bool
  getArchived : Option (String × Nat)
  readerOk : Bool
  writerOk : Bool
  copyErr : Bool
  copied : Nat
  publishOk : Bool
  deriving DecidableEq, Repr

/-- One iteration of the first sync worker of cmd/sync.  Mirrors the branch
structure of the delivery loop: validation failure just restarts the loop
(the modelled broker ValidateJSON nacks and error-publishes); GetArchived,
reader, writer and copy failures nack with requeue; a copy error or a copied
size differing from the recorded size nacks with requeue; a publish failure
restarts the loop without acking; otherwise the delivery is acked. -/
def syncArchiveIter (e : SyncArchiveEnv) : IterResult :=
  if e.validateOk then
    match e.getArchived with
    | some (_, fileSize) =>
      if e.readerOk then
        if e.writerOk then
          if e.copyErr ∨ e.copied ≠ fileSize then
            ⟨[Action.nack true], Outcome.nextDelivery, some e.copied⟩
          else if e.publishOk then
            ⟨[Action.publishOut, Action.ack], Outcome.nextDelivery, some e.copied⟩
          else
            ⟨[], Outcome.nextDelivery, some e.copied⟩
        else ⟨[Action.nack true], Outcome.nextDelivery, none⟩
      else ⟨[Action.nack true], Outcome.nextDelivery, none⟩
    | none => ⟨[Action.nack true], Outcome.nextDelivery, none⟩
  else ⟨validateJSONFailActions, Outcome.nextDelivery, none⟩

/-- Result of the local validateJSON helper of the second sync worker: the
body failed to unmarshal at all (jsonErr), unmarshalled but failed schema
validation (schemaInvalid), or validated. -/
inductive ValidationRes where
  | jsonErr : ValidationRes
  | schemaInvalid : ValidationRes
  | valid : ValidationRes
  deriving DecidableEq, Repr

/-- Collaborator outcomes for one delivery of the second sync worker
(inbox-to-backup variant of cmd/sync): validation of the delivered body,
validation of the constructed completion message, inbox.NewFileReader,
backup.NewFileWriter, io.Copy, db.MarkReady and mq.SendMessage. -/
structure SyncInboxEnv where
  validateBody : ValidationRes
  validateCompleted : ValidationRes
  readerOk : Bool
  writerOk : Bool
  copyErr : Bool
  markReadyOk : Bool
  publishOk : Bool
  deriving DecidableEq, Repr

/-- One iteration of the second sync worker of cmd/sync.  An unmarshal error
nacks without requeue and error-publishes; a body that unmarshals but fails
schema validation nacks without requeue and then evaluates err.Error() on a
nil error while building the error-channel publish, which panics before any
publish happens.  Reader and writer failures only log and restart the loop;
a copy error is log.Fatal; a MarkReady failure nacks with requeue; a publish
failure only logs, and the delivery is acked regardless. -/
def syncInboxIter (e : SyncInboxEnv) : IterResult :=
  match e.validateBody with
  | ValidationRes.jsonErr =>
      ⟨[Action.nack false, Action.publishError], Outcome.nextDelivery, none⟩
  | ValidationRes.schemaInvalid =>
      ⟨[Action.nack false], Outcome.panicked, none⟩
  | ValidationRes.valid =>
    match e.validateCompleted with
    | ValidationRes.jsonErr =>
        ⟨[Action.nack false, Action.publishError], Outcome.nextDelivery, none⟩
    | ValidationRes.schemaInvalid =>
        ⟨[Action.nack false], Outcome.panicked, none⟩
    | ValidationRes.valid =>
      if e.readerOk then
        if e.writerOk then
          if e.copyErr then ⟨[], Outcome.fatal, none⟩
          else if e.markReadyOk then
            if e.publishOk then
              ⟨[Action.markReady, Action.publishOut, Action.ack],
                Outcome.nextDelivery, none⟩
            else
              ⟨[Action.markReady, Action.ack], Outcome.nextDelivery, none⟩
          else ⟨[Action.nack true], Outcome.nextDelivery, none⟩
        else ⟨[], Outcome.nextDelivery, none⟩
      else ⟨[], Outcome.nextDelivery, none⟩

/-- The digest and decryption functions the verify worker composes.  sha256
and md5 map a byte stream to its digest; decrypt models the crypt4gh reader
applied to the concatenation of the stored header and the archive body and
returns the plaintext, or none on a malformed header, an undecryptable body
or a read error while draining the stream. -/
structure Crypto where
  sha256 : Bytes → Bytes
  md5 : Bytes → Bytes
  decrypt : Bytes → Option Bytes

/-- The database.FileInfo record the verify worker fills in: archive size,
decrypted size, checksum over the encrypted bytes read from the archive, and
checksum over the decrypted plaintext. -/
structure FileInfo where
  size : Nat
  decryptedSize : Nat
  checksum : Bytes
  decryptedChecksum : Bytes
  deriving DecidableEq, Repr

/-- Collaborator outcomes for one delivery of the verify worker: broker
schema validation of the inbound body, db.GetHeader, backend.GetFileSize,
backend.NewFileReader, the re_verify flag of the message, validation of the
constructed verified message, db.MarkCompleted and mq.SendMessage. -/
structure VerifyEnv where
  validateOk : Bool
  header : Option Bytes
  archiveSize : Option Nat
  archiveFile : Option Bytes
  reVerify : Bool
  validateOutOk : Bool
  markCompletedOk : Bool
  publishOk : Bool
  deriving DecidableEq, Repr

/-- Result of one verify-worker iteration: the effects performed, the
FileInfo computed by the hashing pass when it ran, and the checksum entries
of the constructed verified message when it was built. -/
structure VerifyResult where
  actions : List Action
  fileInfo : Option FileInfo
  verifiedMsg : Option (List (String × Bytes))
  deriving DecidableEq, Repr

/-- One iteration of the verify worker of cmd/sync.  A failed inbound
validation is handled by the modelled broker ValidateJSON; a GetHeader
failure nacks without requeue and publishes the body to the error routing; a
GetFileSize failure only logs and restarts; a reader failure publishes a
FileError to the error routing without nacking; a decrypt or drain failure
only logs and restarts.  The encrypted-checksum accumulator sees exactly the
bytes read from the archive body (the header is prepended after the tee);
the decrypted length and both plaintext digests come from one drain of the
decrypt stream.  When re_verify is set the whole effect block is skipped;
otherwise a failed validation of the built message is handled by the
modelled ValidateJSON, a MarkCompleted failure only logs and restarts, a
publish failure only logs, and the delivery is acked regardless. -/
def verifyIter (cr : Crypto) (e : VerifyEnv) : VerifyResult :=
  if e.validateOk then
    match e.header with
    | none => ⟨[Action.nack false, Action.publishError], none, none⟩
    | some hd =>
      match e.archiveSize with
      | none => ⟨[], none, none⟩
      | some size =>
        match e.archiveFile with
        | none => ⟨[Action.publishError], none, none⟩
        | some body =>
          match cr.decrypt (hd ++ body) with
          | none => ⟨[], none, none⟩
          | some plain =>
            let fi : FileInfo :=
              ⟨size, plain.length, cr.sha256 body, cr.sha256 plain⟩
            if e.reVerify then ⟨[], some fi, none⟩
            else
              let vmsg := [("sha256", cr.sha256 plain), ("md5", cr.md5 plain)]
              if e.validateOutOk then
                if e.markCompletedOk then
                  if e.publishOk then
                    ⟨[Action.markCompleted, Action.publishOut, Action.ack],
                      some fi, some vmsg⟩
                  else
                    ⟨[Action.markCompleted, Action.ack], some fi, some vmsg⟩
                else ⟨[], some fi, some vmsg⟩
              else ⟨validateJSONFailActions, some fi, some vmsg⟩
  else ⟨validateJSONFailActions, none, none⟩

/-- Whether an action resolves the delivery at the broker (ack or nack). -/
def isResolution : Action → Bool
  | Action.ack => true
  | Action.nack _ => true
  | _ => false

/-- Number of broker resolutions (acks plus nacks) in an action list. -/
def resolutions (acts : List Action) : Nat :=
  (acts.filter isResolution).length

/-- One step of Go lexical path cleaning (path/filepath.Clean) over an
already split component list of a rooted path: empty and dot components are
dropped, and a dotdot component removes the most recently kept component
(at the root it is dropped, as Clean of a rooted dotdot stays at the root).
The accumulator holds the kept components in reverse order. -/
def cleanStep (acc : List String) (c : String) : List String :=
  if c = "" ∨ c = "." then acc
  else if c = ".." then acc.tail
  else c :: acc

/-- The kept components of Go filepath.Clean, in reverse order. -/
def cleanRev (cs : List String) : List String :=
  cs.foldl cleanStep []

/-- Go filepath.Clean on a rooted path represented by its component list. -/
def cleanPath (cs : List String) : List String :=
  (cleanRev cs).reverse

/-- The path the POSIX backend accesses for a caller-provided relative path:
filepath.Join(filepath.Clean(location), filePath), where Join itself cleans
the joined result. -/
def joinResolve (loc rel : List String) : List String :=
  cleanPath (cleanPath loc ++ rel)

/-- Path opened by PosixBackend.NewFileReader (os.Open). -/
def posixReaderPath (loc rel : List String) : List String :=
  joinResolve loc rel

/-- Path opened by PosixBackend.NewFileWriter (os.OpenFile). -/
def posixWriterPath (loc rel : List String) : List String :=
  joinResolve loc rel

/-- Path stat-ed by PosixBackend.GetFileSize (os.Stat). -/
def posixSizePath (loc rel : List String) : List String :=
  joinResolve loc rel

/-- Whether the second component list starts with the first one. -/
def isUnder : List String → List String → Bool
  | [], _ => true
  | _ :: _, [] => false
  | a :: as, b :: bs => a == b && isUnder as bs

/-- Whether a resolved path stays confined under the configured root
directory: the cleaned root components lead the resolved components. -/
def confined (loc res : List String) : Bool :=
  isUnder (cleanPath loc) res

/-- PosixBackend.NewFileReader over a filesystem map: os.Open on the joined
path; the open error is returned to the caller, and the stream is nil
exactly when the error is non-nil. -/
def posixNewFileReader (fs : List String → Option Bytes)
    (loc rel : List String) : Option Bytes × Option String :=
  match fs (posixReaderPath loc rel) with
  | some content => (some content, none)
  | none => (none, some "file open error")

/-- S3Backend.NewFileReader: calls GetObject; a non-nil error is only
logged, never returned, and the function hands back the output body together
with a nil error.  When GetObject fails, the body of the zero-valued output
is nil, so the caller receives a nil stream and a nil error. -/
def s3NewFileReader (getObject : Except String Bytes) :
    Option Bytes × Option String :=
  match getObject with
  | Except.ok body => (some body, none)
  | Except.error _ => (none, none)

/-- Configuration of the S3 storage backend, as in internal/storage. -/
structure S3Conf where
  url : String
  port : Nat
  accessKey : String
  secretKey : String
  bucket : String
  region : String
  uploadConcurrency : Nat
  chunksize : Nat
  cacert : String
  deriving DecidableEq, Repr

/-- The tls.Config fields transportConfigS3 sets: the minimum protocol
version number and the root certificate pool. -/
structure TLSConfig where
  minVersion : Nat
  rootCAs : List String
  deriving DecidableEq, Repr

/-- The http.Transport fields transportConfigS3 sets. -/
structure TransportS3 where
  tlsClientConfig : TLSConfig
  forceAttemptHTTP2 : Bool
  deriving DecidableEq, Repr

/-- The Go crypto/tls protocol version number of TLS 1.0 (0x0301). -/
def versionTLS10 : Nat := 769

/-- The Go crypto/tls protocol version number of TLS 1.2 (0x0303). -/
def versionTLS12 : Nat := 771

/-- transportConfigS3 from internal/storage/storage.go: builds the TLS
client configuration with MinVersion set to the literal 2, the system
certificate pool as root CAs, and optionally one extra CA certificate read
from the configured file; a failure to read that file is log.Fatalf, fatal
at startup, modelled as the error case. -/
def transportConfigS3 (systemCAs : List String)
    (readCAFile : String → Option String) (c : S3Conf) :
    Except Unit TransportS3 :=
  if c.cacert = "" then
    Except.ok ⟨⟨2, systemCAs⟩, true⟩
  else
    match readCAFile c.cacert with
    | none => Except.error ()
    | some pem => Except.ok ⟨⟨2, systemCAs ++ [pem]⟩, true⟩

/-- A concrete instantiation of the digest and decryption functions, used to
evaluate the worker models on closed inputs: digests are injective enough
for the statements at hand and decryption is the identity. -/
def idCrypto : Crypto :=
  ⟨fun b => b, fun b => 0 :: b, fun b => some b⟩

/-- A component produced by one cleaning step is a real path name (not
empty, not dot, not dotdot) whenever the accumulator only holds such
names. -/
theorem cleanStep_real (acc : List String) (c : String)
    (h : ∀ x ∈ acc, x ≠ "" ∧ x ≠ "." ∧ x ≠ "..") :
    ∀ x ∈ cleanStep acc c, x ≠ "" ∧ x ≠ "." ∧ x ≠ ".." := by
  intro x hx
  unfold cleanStep at hx
  by_cases h1 : c = "" ∨ c = "."
  · rw [if_pos h1] at hx
    exact h x hx
  · rw [if_neg h1] at hx
    by_cases h2 : c = ".."
    · rw [if_pos h2] at hx
      exact h x (List.mem_of_mem_tail hx)
    · rw [if_neg h2] at hx
      rcases List.mem_cons.mp hx with rfl | hx
      · exact ⟨fun hc => h1 (Or.inl hc), fun hc => h1 (Or.inr hc), h2⟩
      · exact h x hx

/-- Every component kept by the cleaning fold is a real path name if the
starting accumulator only holds such names. -/
theorem cleanFold_real (cs : List String) :
    ∀ acc : List String, (∀ x ∈ acc, x ≠ "" ∧ x ≠ "." ∧ x ≠ "..") →
      ∀ x ∈ List.foldl cleanStep acc cs, x ≠ "" ∧ x ≠ "." ∧ x ≠ ".." := by
  induction cs with
  | nil => intro acc h; exact h
  | cons c cs ih =>
    intro acc h
    exact ih (cleanStep acc c) (cleanStep_real acc c h)

/-- Every component of a cleaned path is a real path name. -/
theorem cleanRev_real (cs : List String) :
    ∀ x ∈ cleanRev cs, x ≠ "" ∧ x ≠ "." ∧ x ≠ ".." :=
  cleanFold_real cs [] (by intro x hx; cases hx)

/-- Folding the cleaning step over a list of real path names just stacks
them onto the accumulator. -/
theorem foldl_real_append (l : List String) :
    (∀ x ∈ l, x ≠ "" ∧ x ≠ "." ∧ x ≠ "..") →
    ∀ acc : List String, List.foldl cleanStep acc l = l.reverse ++ acc := by
  induction l with
  | nil => intro _ acc; rfl
  | cons c l ih =>
    intro hl acc
    have hc := hl c (List.mem_cons_self c l)
    have hstep : cleanStep acc c = c :: acc := by
      unfold cleanStep
      rw [if_neg (by rintro (h | h); exacts [hc.1 h, hc.2.1 h]), if_neg hc.2.2]
    rw [List.foldl_cons, hstep,
      ih (fun x hx => hl x (List.mem_cons_of_mem c hx)) (c :: acc)]
    simp

/-- Cleaning an already cleaned path keeps its kept-component list. -/
theorem cleanRev_clean (cs : List String) :
    cleanRev (cleanPath cs) = cleanRev cs := by
  have h := foldl_real_append (cleanPath cs)
    (fun x hx => cleanRev_real cs x (List.mem_reverse.mp hx)) []
  calc cleanRev (cleanPath cs) = (cleanPath cs).reverse ++ [] := h
  _ = cleanRev cs := by simp [cleanPath]

/-- Folding the cleaning step over components free of dotdot never pops the
accumulator: the accumulator survives as a suffix. -/
theorem foldl_no_dotdot_suffix (rel : List String) :
    ".." ∉ rel → ∀ acc : List String,
      ∃ ex : List String, List.foldl cleanStep acc rel = ex ++ acc := by
  induction rel with
  | nil => intro _ acc; exact ⟨[], rfl⟩
  | cons c rel ih =>
    intro h acc
    have hc : c ≠ ".." := fun hcc => h (List.mem_cons.mpr (Or.inl hcc.symm))
    have hrest : ".." ∉ rel := fun hm => h (List.mem_cons_of_mem c hm)
    rw [List.foldl_cons]
    by_cases h1 : c = "" ∨ c = "."
    · have hstep : cleanStep acc c = acc := by
        unfold cleanStep
        rw [if_pos h1]
      rw [hstep]
      exact ih hrest acc
    · have hstep : cleanStep acc c = c :: acc := by
        unfold cleanStep
        rw [if_neg h1, if_neg hc]
      rw [hstep]
      obtain ⟨ex, hex⟩ := ih hrest (c :: acc)
      exact ⟨ex ++ [c], by rw [hex]; simp⟩

/-- A component list extended on the right still starts with itself. -/
theorem isUnder_append (root more : List String) :
    isUnder root (root ++ more) = true := by
  induction root with
  | nil => rfl
  | cons a as ih => simp [isUnder, ih]

/-- Claim C7: counterexample.  For root directory /data and the
caller-provided relative path ../secret, the POSIX backend resolves
GetFileSize, NewFileReader and NewFileWriter to /secret, which is not
confined under /data: the lexical join-and-clean lets dotdot components
escape the root. -/
theorem posix_dotdot_escapes_counterexample :
    posixReaderPath ["data"] ["..", "secret"] = ["secret"] ∧
    confined ["data"] (posixReaderPath ["data"] ["..", "secret"]) = false ∧
    confined ["data"] (posixWriterPath ["data"] ["..", "secret"]) = false ∧
    confined ["data"] (posixSizePath ["data"] ["..", "secret"]) = false := by
  decide

/-- Claim C7 (amended): the POSIX backend resolves GetFileSize,
NewFileReader and NewFileWriter through the same lexical join-and-clean of
the configured root and the caller-provided relative path; the resolved path
is confined under the root for every relative path containing no dotdot
component, but dotdot components can climb out of the root. -/
theorem posix_paths_confined_without_dotdot (loc rel : List String)
    (h : ".." ∉ rel) :
    confined loc (posixReaderPath loc rel) = true ∧
    confined loc (posixWriterPath loc rel) = true ∧
    confined loc (posixSizePath loc rel) = true := by
  have key : confined loc (joinResolve loc rel) = true := by
    obtain ⟨ex, hex⟩ := foldl_no_dotdot_suffix rel h (cleanRev loc)
    have h2 : cleanRev (cleanPath loc ++ rel) = ex ++ cleanRev loc := by
      have e1 : cleanRev (cleanPath loc ++ rel)
          = List.foldl cleanStep (cleanRev (cleanPath loc)) rel := by
        simp [cleanRev, List.foldl_append]
      rw [e1, cleanRev_clean loc, hex]
    have h4 : joinResolve loc rel = cleanPath loc ++ ex.reverse := by
      show (cleanRev (cleanPath loc ++ rel)).reverse = cleanPath loc ++ ex.reverse
      rw [h2, List.reverse_append]
      rfl
    show isUnder (cleanPath loc) (joinResolve loc rel) = true
    rw [h4]
    exact isUnder_append (cleanPath loc) ex.reverse
  exact ⟨key, key, key⟩

/-- Claim C7 witness: a dotdot-free relative path under root /data stays
confined for all three POSIX operations. -/
theorem posix_paths_confined_without_dotdot_witness :
    (".." ∉ (["alice", "f.txt"] : List String)) ∧
    (confined ["data"] (posixReaderPath ["data"] ["alice", "f.txt"]) = true ∧
     confined ["data"] (posixWriterPath ["data"] ["alice", "f.txt"]) = true ∧
     confined ["data"] (posixSizePath ["data"] ["alice", "f.txt"]) = true) :=
  ⟨by decide, posix_paths_confined_without_dotdot ["data"] ["alice", "f.txt"] (by decide)⟩

/-- Claim C2: at a delivery whose body is well-formed JSON but fails schema
validation, the second sync worker negative-acknowledges without requeue and
then evaluates err.Error() on a nil error while building the error-channel
publish, so the iteration panics before any error-channel publish and the
loop does not proceed to the next delivery. -/
theorem schema_invalid_panics_before_error_publish :
    (syncInboxIter ⟨ValidationRes.schemaInvalid, ValidationRes.valid,
        true, true, false, true, true⟩).actions = [Action.nack false] ∧
    (syncInboxIter ⟨ValidationRes.schemaInvalid, ValidationRes.valid,
        true, true, false, true, true⟩).outcome = Outcome.panicked ∧
    Action.publishError ∉ (syncInboxIter ⟨ValidationRes.schemaInvalid,
        ValidationRes.valid, true, true, false, true, true⟩).actions := by
  decide

/-- Claim C3: counterexample.  When the inbox file fails to open in the
second sync worker, the iteration ends with zero acknowledgements and zero
negative-acknowledgements: the delivery is left unresolved, contradicting
exactly-once resolution. -/
theorem delivery_left_unresolved_counterexample :
    resolutions (syncInboxIter ⟨ValidationRes.valid, ValidationRes.valid,
        false, true, false, true, true⟩).actions = 0 := by
  decide

/-- Claim C3 (amended): no iteration of any of the three workers resolves
its delivery more than once, but resolution is not guaranteed: some
iterations end with the delivery neither acknowledged nor
negative-acknowledged. -/
theorem delivery_resolved_at_most_once (e1 : SyncArchiveEnv)
    (e2 : SyncInboxEnv) (cr : Crypto) (e3 : VerifyEnv) :
    resolutions (syncArchiveIter e1).actions ≤ 1 ∧
    resolutions (syncInboxIter e2).actions ≤ 1 ∧
    resolutions (verifyIter cr e3).actions ≤ 1 := by
  refine ⟨?_, ?_, ?_⟩
  · unfold syncArchiveIter
    repeat' split
    all_goals simp [resolutions, validateJSONFailActions, isResolution]
  · unfold syncInboxIter
    repeat' split
    all_goals simp [resolutions, validateJSONFailActions, isResolution]
  · unfold verifyIter
    repeat' split
    all_goals simp [resolutions, validateJSONFailActions, isResolution]

/-- Claim C1: counterexample.  In the second sync worker an iteration whose
outbound completion publish fails still acknowledges the inbound delivery,
so the message does not stay redeliverable. -/
theorem publish_fail_still_acks_counterexample :
    (SyncInboxEnv.mk ValidationRes.valid ValidationRes.valid
        true true false true false).publishOk = false ∧
    Action.ack ∈ (syncInboxIter (SyncInboxEnv.mk ValidationRes.valid
        ValidationRes.valid true true false true false)).actions := by
  decide

/-- Claim C1 (amended): when the outbound publish fails, the first sync
worker ends the iteration without acknowledging the delivery, but the
second sync worker and the verify worker acknowledge the delivery even
though the publish failed. -/
theorem publish_fail_ack_behaviour (e1 : SyncArchiveEnv) (e2 : SyncInboxEnv)
    (cr : Crypto) (e3 : VerifyEnv) (hd body plain : Bytes) (n : Nat)
    (h1 : e1.publishOk = false)
    (h2v : e2.validateBody = ValidationRes.valid)
    (h2c : e2.validateCompleted = ValidationRes.valid)
    (h2r : e2.readerOk = true) (h2w : e2.writerOk = true)
    (h2cp : e2.copyErr = false) (h2m : e2.markReadyOk = true)
    (h2p : e2.publishOk = false)
    (h3v : e3.validateOk = true) (h3h : e3.header = some hd)
    (h3s : e3.archiveSize = some n) (h3f : e3.archiveFile = some body)
    (h3d : cr.decrypt (hd ++ body) = some plain) (h3r : e3.reVerify = false)
    (h3vo : e3.validateOutOk = true) (h3m : e3.markCompletedOk = true)
    (h3p : e3.publishOk = false) :
    Action.ack ∉ (syncArchiveIter e1).actions ∧
    Action.ack ∈ (syncInboxIter e2).actions ∧
    Action.ack ∈ (verifyIter cr e3).actions := by
  refine ⟨?_, ?_, ?_⟩
  · simp only [syncArchiveIter, h1]
    repeat' split
    all_goals simp_all [validateJSONFailActions]
  · simp [syncInboxIter, h2v, h2c, h2r, h2w, h2cp, h2m, h2p]
  · simp [verifyIter, h3v, h3h, h3s, h3f, h3d, h3r, h3vo, h3m, h3p]

/-- Claim C1 witness: concrete iterations of the three workers whose
outbound publish fails, evaluated to show the first one does not ack while
the other two do. -/
theorem publish_fail_ack_behaviour_witness :
    Action.ack ∉ (syncArchiveIter ⟨true, some ("alice/f", 4), true, true,
        false, 4, false⟩).actions ∧
    Action.ack ∈ (syncInboxIter ⟨ValidationRes.valid, ValidationRes.valid,
        true, true, false, true, false⟩).actions ∧
    Action.ack ∈ (verifyIter idCrypto ⟨true, some [1], some 2, some [2, 3],
        false, true, true, false⟩).actions :=
  publish_fail_ack_behaviour _ _ idCrypto _ [1] [2, 3] [1, 2, 3] 2
    rfl rfl rfl rfl rfl rfl rfl rfl rfl rfl rfl rfl rfl rfl rfl rfl rfl

/-- Claim C4: for every verify-work message processed through the hashing
pass, the recorded decrypted size is the plaintext byte count, the decrypted
sha256 checksum is the sha256 digest of exactly those plaintext bytes, the
encrypted checksum is the sha256 digest of the bytes read from the archive
body stream (the stored header excluded), and, whenever the verified
message is built, its md5 entry is the md5 digest of the same plaintext. -/
theorem verify_checksums_correct (cr : Crypto) (e : VerifyEnv)
    (hd body plain : Bytes) (n : Nat)
    (hv : e.validateOk = true) (hh : e.header = some hd)
    (hs : e.archiveSize = some n) (hf : e.archiveFile = some body)
    (hdec : cr.decrypt (hd ++ body) = some plain) :
    (verifyIter cr e).fileInfo =
      some ⟨n, plain.length, cr.sha256 body, cr.sha256 plain⟩ ∧
    (e.reVerify = false → (verifyIter cr e).verifiedMsg =
      some [("sha256", cr.sha256 plain), ("md5", cr.md5 plain)]) := by
  constructor
  · simp only [verifyIter, hv, hh, hs, hf, hdec]
    repeat' split
    all_goals simp_all
  · intro hre
    simp only [verifyIter, hv, hh, hs, hf, hdec, hre]
    repeat' split
    all_goals simp_all

/-- Claim C4 witness: the checksum contract evaluated on a concrete
verify-work message with identity decryption. -/
theorem verify_checksums_correct_witness :
    (verifyIter idCrypto ⟨true, some [1], some 2, some [2, 3],
        false, true, true, true⟩).fileInfo =
      some ⟨2, 3, idCrypto.sha256 [2, 3], idCrypto.sha256 [1, 2, 3]⟩ ∧
    (false = false → (verifyIter idCrypto ⟨true, some [1], some 2,
        some [2, 3], false, true, true, true⟩).verifiedMsg =
      some [("sha256", idCrypto.sha256 [1, 2, 3]),
            ("md5", idCrypto.md5 [1, 2, 3])]) :=
  verify_checksums_correct idCrypto _ [1] [2, 3] [1, 2, 3] 2
    rfl rfl rfl rfl rfl

/-- Claim C5: with a known archived size, the first sync worker reaches the
acknowledgement path only with a destination object of exactly that byte
count, and whenever the copied byte count differs from the recorded size the
iteration performs exactly one negative-acknowledge with requeue and no
acknowledgement. -/
theorem copy_size_checked (e : SyncArchiveEnv) (p : String) (sz : Nat)
    (hv : e.validateOk = true) (hg : e.getArchived = some (p, sz))
    (hr : e.readerOk = true) (hw : e.writerOk = true) :
    (Action.ack ∈ (syncArchiveIter e).actions →
      (syncArchiveIter e).destLen = some sz) ∧
    (e.copied ≠ sz → (syncArchiveIter e).actions = [Action.nack true]) := by
  by_cases hce : e.copyErr ∨ e.copied ≠ sz
  · refine ⟨?_, ?_⟩
    · intro hack
      simp [syncArchiveIter, hv, hg, hr, hw, hce] at hack
    · intro _
      simp [syncArchiveIter, hv, hg, hr, hw, hce]
  · have hno := not_or.mp hce
    have hcerr : e.copyErr = false := by
      simpa using hno.1
    have hcp : e.copied = sz := not_not.mp hno.2
    refine ⟨?_, ?_⟩
    · intro _
      by_cases hp : e.publishOk
      · simp [syncArchiveIter, hv, hg, hr, hw, hcerr, hcp, hp]
      · simp [syncArchiveIter, hv, hg, hr, hw, hcerr, hcp, hp]
    · intro hne
      exact absurd hcp hne

/-- Claim C5 witness: a successful 1024-byte copy against a recorded size of
1024 acks with a destination of 1024 bytes; the mismatch branch is vacuous
here. -/
theorem copy_size_checked_witness :
    (Action.ack ∈ (syncArchiveIter ⟨true, some ("alice/f", 1024), true, true,
        false, 1024, true⟩).actions →
      (syncArchiveIter ⟨true, some ("alice/f", 1024), true, true,
        false, 1024, true⟩).destLen = some 1024) ∧
    ((⟨true, some ("alice/f", 1024), true, true, false, 1024, true⟩ :
        SyncArchiveEnv).copied ≠ 1024 →
      (syncArchiveIter ⟨true, some ("alice/f", 1024), true, true,
        false, 1024, true⟩).actions = [Action.nack true]) :=
  copy_size_checked _ "alice/f" 1024 rfl rfl rfl rfl

/-- Claim C6: counterexample.  In the verify worker a MarkCompleted failure
after a successful verification leaves an empty action list: no outbound
publish and no ack, but also no negative-acknowledge with requeue — the
delivery is left unresolved, not requeued. -/
theorem persist_fail_no_nack_counterexample :
    (⟨true, some [1], some 1, some [2], false, true, false, true⟩ :
        VerifyEnv).markCompletedOk = false ∧
    (verifyIter idCrypto ⟨true, some [1], some 1, some [2],
        false, true, false, true⟩).actions = [] := by
  decide

/-- Claim C6 (amended): a MarkReady failure in the second sync worker yields
exactly one negative-acknowledge with requeue, no acknowledgement and no
outbound publish; a MarkCompleted failure in the verify worker also yields
no outbound publish and no acknowledgement, but performs no
negative-acknowledge either: the delivery is left unresolved. -/
theorem persist_fail_behaviour (e2 : SyncInboxEnv) (cr : Crypto)
    (e3 : VerifyEnv) (hd body plain : Bytes) (n : Nat)
    (h2v : e2.validateBody = ValidationRes.valid)
    (h2c : e2.validateCompleted = ValidationRes.valid)
    (h2r : e2.readerOk = true) (h2w : e2.writerOk = true)
    (h2cp : e2.copyErr = false) (h2m : e2.markReadyOk = false)
    (h3v : e3.validateOk = true) (h3h : e3.header = some hd)
    (h3s : e3.archiveSize = some n) (h3f : e3.archiveFile = some body)
    (h3d : cr.decrypt (hd ++ body) = some plain) (h3r : e3.reVerify = false)
    (h3vo : e3.validateOutOk = true) (h3m : e3.markCompletedOk = false) :
    (syncInboxIter e2).actions = [Action.nack true] ∧
    (verifyIter cr e3).actions = [] := by
  constructor
  · simp [syncInboxIter, h2v, h2c, h2r, h2w, h2cp, h2m]
  · simp [verifyIter, h3v, h3h, h3s, h3f, h3d, h3r, h3vo, h3m]

/-- Claim C6 witness: concrete persist-step failures in both workers. -/
theorem persist_fail_behaviour_witness :
    (syncInboxIter ⟨ValidationRes.valid, ValidationRes.valid, true, true,
        false, false, true⟩).actions = [Action.nack true] ∧
    (verifyIter idCrypto ⟨true, some [1], some 2, some [2, 3],
        false, true, false, true⟩).actions = [] :=
  persist_fail_behaviour _ idCrypto _ [1] [2, 3] [1, 2, 3] 2
    rfl rfl rfl rfl rfl rfl rfl rfl rfl rfl rfl rfl rfl rfl

/-- Claim C8: the TLS client configuration built by transportConfigS3 sets
MinVersion to the literal 2, which is not the TLS 1.2 protocol version
number (771, hex 0303); even the TLS 1.0 version number 769 is not below
this minimum, so the setting does not reject connections below TLS 1.2. -/
theorem transport_min_version_not_tls12 (systemCAs : List String)
    (readCAFile : String → Option String) (c : S3Conf) (t : TransportS3)
    (h : transportConfigS3 systemCAs readCAFile c = Except.ok t) :
    t.tlsClientConfig.minVersion = 2 ∧
    t.tlsClientConfig.minVersion ≠ versionTLS12 ∧
    versionTLS10 ≥ t.tlsClientConfig.minVersion := by
  have hmin : t.tlsClientConfig.minVersion = 2 := by
    unfold transportConfigS3 at h
    split at h
    · rw [Except.ok.injEq] at h
      rw [← h]
    · split at h
      · exact Except.noConfusion h
      · rw [Except.ok.injEq] at h
        rw [← h]
  refine ⟨hmin, ?_, ?_⟩
  · rw [hmin]
    decide
  · rw [hmin]
    decide

/-- Claim C8 witness: the transport built for a concrete configuration
without an extra CA certificate. -/
theorem transport_min_version_not_tls12_witness :
    (⟨⟨2, []⟩, true⟩ : TransportS3).tlsClientConfig.minVersion = 2 ∧
    (⟨⟨2, []⟩, true⟩ : TransportS3).tlsClientConfig.minVersion ≠ versionTLS12 ∧
    versionTLS10 ≥ (⟨⟨2, []⟩, true⟩ : TransportS3).tlsClientConfig.minVersion :=
  transport_min_version_not_tls12 [] (fun _ => none)
    ⟨"https://s3.example", 443, "ak", "sk", "bkt", "us-east-1", 1, 1, ""⟩
    ⟨⟨2, []⟩, true⟩ rfl

/-- Claim C9: when GetObject fails, S3Backend.NewFileReader logs the error
and returns a nil stream together with a nil error instead of propagating
it; the POSIX NewFileReader, by contrast, returns a nil stream exactly when
it returns a non-nil error. -/
theorem s3_reader_swallows_error (msg : String)
    (fs : List String → Option Bytes) (loc rel : List String) :
    s3NewFileReader (Except.error msg) = (none, none) ∧
    (posixNewFileReader fs loc rel).1.isNone
      = (posixNewFileReader fs loc rel).2.isSome := by
  constructor
  · rfl
  · unfold posixNewFileReader
    cases fs (posixReaderPath loc rel) <;> rfl

/-- Claim C10: a re-verify message that passes validation, header lookup,
size lookup, open and decrypt computes the verification checksums and the
decrypted size but performs no observable effect: no MarkCompleted, no
outbound publish, no error publish, no ack and no nack — the delivery is
left unresolved by the iteration. -/
theorem reverify_no_effects (cr : Crypto) (e : VerifyEnv)
    (hd body plain : Bytes) (n : Nat)
    (hv : e.validateOk = true) (hh : e.header = some hd)
    (hs : e.archiveSize = some n) (hf : e.archiveFile = some body)
    (hdec : cr.decrypt (hd ++ body) = some plain) (hr : e.reVerify = true) :
    (verifyIter cr e).actions = [] ∧
    (verifyIter cr e).fileInfo =
      some ⟨n, plain.length, cr.sha256 body, cr.sha256 plain⟩ := by
  constructor <;> simp [verifyIter, hv, hh, hs, hf, hdec, hr]

/-- Claim C10 witness: a concrete re-verify message with identity
decryption: checksums computed, empty action list. -/
theorem reverify_no_effects_witness :
    (verifyIter idCrypto ⟨true, some [1], some 2, some [2, 3],
        true, true, true, true⟩).actions = [] ∧
    (verifyIter idCrypto ⟨true, some [1], some 2, some [2, 3],
        true, true, true, true⟩).fileInfo =
      some ⟨2, 3, idCrypto.sha256 [2, 3], idCrypto.sha256 [1, 2, 3]⟩ :=
  reverify_no_effects idCrypto _ [1] [2, 3] [1, 2, 3] 2
    rfl rfl rfl rfl rfl rfl

end SDA
